import Mathlib

/-!
Verification of `lucid_component_fixture_cpu` (file
`src/lucid_component_fixture_cpu/component.py`) against its design
specification.

The component's command handlers operate on JSON-decoded Python values
(dicts, lists, strings, numbers, booleans, None), so we first embed that
value universe together with the exact dict/truthiness/conversion
operations the handler uses, then translate `FixtureCpuComponent`'s
methods over it.
-/

namespace LucidFixtureCpu

/-- A Python value as produced by `json.loads` (plus the values the
component itself constructs).  Python `int` and `float` are kept distinct
because truthiness and `int()`/`float()` conversions see them differently;
floats are modelled as rationals, which is exact for every literal the
component manipulates. -/
inductive PyValue where
  | pynull
  | pybool (b : Bool)
  | pyint (n : Int)
  | pyfloat (q : ℚ)
  | pystr (s : String)
  | pylist (xs : List PyValue)
  | pydict (kvs : List (String × PyValue))

namespace PyValue

/-- Python truthiness (`bool(x)` / `x or y` tests). -/
def truthy : PyValue → Bool
  | .pynull => false
  | .pybool b => b
  | .pyint n => decide (n ≠ 0)
  | .pyfloat q => decide (q ≠ 0)
  | .pystr s => decide (s ≠ "")
  | .pylist xs => !xs.isEmpty
  | .pydict kvs => !kvs.isEmpty

/-- `isinstance(x, dict)`. -/
def isDict : PyValue → Bool
  | .pydict _ => true
  | _ => false

end PyValue

/-- First-match lookup in an association list (a Python dict keeps keys
unique, so this coincides with Python dict indexing / `.get`). -/
def pyLookup : List (String × PyValue) → String → Option PyValue
  | [], _ => none
  | (k', v) :: rest, k => if k' = k then some v else pyLookup rest k

/-- Python `k in d`. -/
def pyContains (kvs : List (String × PyValue)) (k : String) : Bool :=
  (pyLookup kvs k).isSome

/-- Python dict item assignment `d[k] = v`: replace in place when the key
exists, append otherwise. -/
def pySet : List (String × PyValue) → String → PyValue → List (String × PyValue)
  | [], k, v => [(k, v)]
  | (k', v') :: rest, k, v =>
      if k' = k then (k', v) :: rest else (k', v') :: pySet rest k v

/-- Python `\x7b**a, **b\x7d`: the keys of `a` in order with values
overridden from `b`, then the keys of `b` that are new, in order. -/
def dictMerge (a b : List (String × PyValue)) : List (String × PyValue) :=
  (a.map (fun p => (p.1, ((pyLookup b p.1).getD p.2)))) ++
    b.filter (fun p => ! pyContains a p.1)

/-- Python `d.get(k, default)` where `d` may fail to be a dict (in which
case Python raises `AttributeError`, modelled as `Except.error`). -/
def pyGetMethod (v : PyValue) (k : String) (d : PyValue) : Except String PyValue :=
  match v with
  | .pydict kvs => .ok ((pyLookup kvs k).getD d)
  | _ => .error "object has no attribute get"

/-- Python `dict(x)`: succeeds on a dict (copy), raises otherwise for the
values this component can store. -/
def pyDictCoerce : PyValue → Except String (List (String × PyValue))
  | .pydict kvs => .ok kvs
  | _ => .error "cannot convert value to dict"

/-- Truncation of a rational toward zero, as Python `int(float)` does. -/
def pyTruncToInt (q : ℚ) : Int :=
  if 0 ≤ q then ⌊q⌋ else ⌈q⌉

/-- Python `int(x)`.  String parsing is modelled for integer literals;
other strings raise, as do `None`, lists and dicts. -/
def pyInt : PyValue → Except String Int
  | .pybool b => .ok (if b then 1 else 0)
  | .pyint n => .ok n
  | .pyfloat q => .ok (pyTruncToInt q)
  | .pystr s =>
      match s.trim.toInt? with
      | some n => .ok n
      | none => .error "invalid literal for int"
  | _ => .error "int argument must be a number or string"

/-- Python `float(x)`.  String parsing is modelled for integer literals;
other strings raise, as do `None`, lists and dicts. -/
def pyFloat : PyValue → Except String ℚ
  | .pybool b => .ok (if b then 1 else 0)
  | .pyint n => .ok (n : ℚ)
  | .pyfloat q => .ok q
  | .pystr s =>
      match s.trim.toInt? with
      | some n => .ok ((n : ℚ))
      | none => .error "could not convert string to float"
  | _ => .error "float argument must be a number or string"

/-! ## The Metric Source (`psutil`) and `get_state_payload` -/

/-- The outcome of the two `psutil` calls in one invocation of
`get_state_payload`: `none` means the call raised (or, for `loadavg`,
that `psutil.getloadavg` is absent). -/
structure PsutilOracle where
  cpu_percent : Option ℚ
  loadavg : Option ℚ

namespace FixtureCpuComponent

/-- `FixtureCpuComponent.get_state_payload`: each `psutil` read is wrapped
in `try/except` and a failed read is replaced by `0.0`. -/
def get_state_payload (ps : PsutilOracle) : PyValue :=
  .pydict [("cpu_percent", .pyfloat (ps.cpu_percent.getD 0)),
           ("load", .pyfloat (ps.loadavg.getD 0))]

/-- The handler's `available_metrics`: the key set of the state payload. -/
def availableMetrics (ps : PsutilOracle) : List String :=
  match get_state_payload ps with
  | .pydict kvs => kvs.map Prod.fst
  | _ => []

/-! ## Component state and command plumbing -/

/-- The slice of component state the cfg/set handler reads and writes:
the `_logs_enabled` flag and the stored `_telemetry_cfg` document. -/
structure CompState where
  logs_enabled : Bool
  telemetry_cfg : PyValue

/-- A CommandResult as emitted by `publish_result` /
`publish_cfg_set_result` (the timestamp is omitted; it carries no
claim-relevant information). -/
structure CmdResult where
  request_id : PyValue
  ok : Bool
  applied : Option PyValue
  error : Option String

/-- One inbound command payload, after the transport layer: the payload
string may be empty (Python-falsy, bypassing `json.loads`), may fail to
decode (`json.JSONDecodeError`), or decodes to a `PyValue`. -/
inductive CmdInput where
  | empty
  | undecodable
  | decoded (v : PyValue)

/-- The parse prelude shared by the handlers: `json.loads` guarded by
`try/except json.JSONDecodeError`, then `payload.get` calls.  Returns the
request id and, for cfg/set, the value of `payload.get("set") or \x7b\x7d`.
`Except.error` models the uncaught `AttributeError` raised by
`payload.get` when the payload decodes to a non-dict. -/
def parseCmdSet (input : CmdInput) : Except Unit (PyValue × PyValue) :=
  match input with
  | .empty => .ok (.pystr "", .pydict [])
  | .undecodable => .ok (.pystr "", .pydict [])
  | .decoded (.pydict kvs) =>
      let rid := (pyLookup kvs "request_id").getD (.pystr "")
      let sraw := (pyLookup kvs "set").getD .pynull
      .ok (rid, if sraw.truthy then sraw else .pydict [])
  | .decoded _ => .error ()

/-- `on_cmd_ping`: always replies `ok=True, error=None` with the parsed
request id (empty and undecodable payloads give `request_id = ""`). -/
def on_cmd_ping (input : CmdInput) : Except Unit CmdResult :=
  match input with
  | .empty => .ok ⟨.pystr "", true, none, none⟩
  | .undecodable => .ok ⟨.pystr "", true, none, none⟩
  | .decoded (.pydict kvs) =>
      .ok ⟨(pyLookup kvs "request_id").getD (.pystr ""), true, none, none⟩
  | .decoded _ => .error ()

/-- `on_cmd_reset`: identical shape to ping. -/
def on_cmd_reset (input : CmdInput) : Except Unit CmdResult :=
  match input with
  | .empty => .ok ⟨.pystr "", true, none, none⟩
  | .undecodable => .ok ⟨.pystr "", true, none, none⟩
  | .decoded (.pydict kvs) =>
      .ok ⟨(pyLookup kvs "request_id").getD (.pystr ""), true, none, none⟩
  | .decoded _ => .error ()

/-! ## The cfg/set handler -/

/-- The `logs_enabled` step of `on_cmd_cfg_set`: when present in `set`,
overwrite `_logs_enabled` with the value's truthiness and record it in
`applied`. -/
def applyLogsEnabled (st : CompState) (set_kvs : List (String × PyValue)) :
    CompState × List (String × PyValue) :=
  match pyLookup set_kvs "logs_enabled" with
  | some v => ({ st with logs_enabled := v.truthy },
               [("logs_enabled", .pybool v.truthy)])
  | none => (st, [])

/-- One iteration of the metrics-merge loop of `on_cmd_cfg_set`, acting on
the running `current_metrics` dict.  Returns the updated dict and, when
the metric name is not an available metric, the warning that is logged.
`Except.error` models an exception inside the loop body (caught by the
handler's outer `except`). -/
def mergeOneMetric (available : List String) (cm : List (String × PyValue))
    (name : String) (mcfg : PyValue) :
    Except String (List (String × PyValue) × Option String) :=
  if ¬ available.contains name then
    .ok (cm, some name)
  else
    match pyLookup cm name with
    | some (.pydict cur) =>
        match mcfg with
        | .pydict pkvs =>
            let m1 := dictMerge cur pkvs
            let m2 := if pyContains m1 "enabled" then m1
                      else pySet m1 "enabled" (.pybool false)
            let m3 := if pyContains m2 "interval_s" then m2
                      else pySet m2 "interval_s" (.pyint 2)
            let m4 := if pyContains m3 "change_threshold_percent" then m3
                      else pySet m3 "change_threshold_percent" (.pyfloat 2)
            .ok (pySet cm name (.pydict m4), none)
        | _ => .error "argument must be a mapping"
    | _ =>
        match mcfg with
        | .pydict pkvs =>
            let en := PyValue.truthy ((pyLookup pkvs "enabled").getD (.pybool false))
            match pyInt ((pyLookup pkvs "interval_s").getD (.pyint 2)) with
            | .error e => .error e
            | .ok iv =>
                match pyFloat ((pyLookup pkvs "change_threshold_percent").getD (.pyfloat 2)) with
                | .error e => .error e
                | .ok th =>
                    .ok (pySet cm name (.pydict
                      [("enabled", .pybool en), ("interval_s", .pyint iv),
                       ("change_threshold_percent", .pyfloat th)]), none)
        | _ =>
            .ok (pySet cm name (.pydict
              [("enabled", .pybool mcfg.truthy), ("interval_s", .pyint 2),
               ("change_threshold_percent", .pyfloat 2)]), none)

/-- The whole metrics-merge loop, folded over the entries of the submitted
`metrics` object, accumulating the logged warnings. -/
def mergeMetrics (available : List String) :
    List (String × PyValue) → List (String × PyValue) →
    Except String (List (String × PyValue) × List String)
  | [], cm => .ok (cm, [])
  | (name, mcfg) :: rest, cm =>
      match mergeOneMetric available cm name mcfg with
      | .error e => .error e
      | .ok (cm', w) =>
          match mergeMetrics available rest cm' with
          | .error e => .error e
          | .ok (cm'', ws) => .ok (cm'', w.toList ++ ws)

/-- The default per-metric configuration used to backfill metrics that
exist in state but have no entry after the merge. -/
def defaultMetricCfg : PyValue :=
  .pydict [("enabled", .pybool false), ("interval_s", .pyint 2),
           ("change_threshold_percent", .pyfloat 2)]

/-- The backfill pass: ensure every available metric has an entry. -/
def backfillMetrics (available : List String) (cm : List (String × PyValue)) :
    List (String × PyValue) :=
  available.foldl
    (fun acc name => if pyContains acc name then acc
                     else pySet acc name defaultMetricCfg) cm

/-- The document passed to `set_telemetry_config`:
`\x7b"metrics": current_metrics\x7d`. -/
def mkTelemetryDoc (cm : List (String × PyValue)) : PyValue :=
  .pydict [("metrics", .pydict cm)]

/-- Result of the telemetry sub-step of `on_cmd_cfg_set`. -/
inductive TelemetryStepResult where
  | invalid
  | raised (msg : String)
  | applied (st : CompState) (warnings : List String)

/-- The telemetry branch of `on_cmd_cfg_set` (the body guarded by
`"telemetry" in set_dict`): validates the sub-object, merges the metrics
objects into `current_metrics`, backfills, and stores the new config via
`set_telemetry_config`.  A non-dict `telemetry` is `invalid` (early
`ok=false` return); an exception inside the body is `raised` (caught by
the outer `except`). -/
def telemetryStep (ps : PsutilOracle) (st1 : CompState) (tset : PyValue) :
    TelemetryStepResult :=
  match tset with
  | .pydict t_kvs =>
      match pyGetMethod st1.telemetry_cfg "metrics" (.pydict []) with
      | .error e => .raised e
      | .ok mv =>
          match pyDictCoerce mv with
          | .error e => .raised e
          | .ok cm0 =>
              match pyLookup t_kvs "metrics" with
              | some (.pydict m_kvs) =>
                  match mergeMetrics (availableMetrics ps) m_kvs cm0 with
                  | .error e => .raised e
                  | .ok (cm1, ws) =>
                      let cmB := backfillMetrics (availableMetrics ps) cm1
                      .applied { st1 with telemetry_cfg := mkTelemetryDoc cmB } ws
              | _ =>
                  .applied { st1 with telemetry_cfg := mkTelemetryDoc cm0 } []
  | _ => .invalid

/-- The full observable outcome of one `on_cmd_cfg_set` call: the emitted
CommandResult, the final component state, whether `publish_cfg` ran, and
the unknown-metric warnings that were logged. -/
structure CfgSetOutcome where
  result : CmdResult
  state : CompState
  published_cfg : Bool
  warnings : List String

/-- `FixtureCpuComponent.on_cmd_cfg_set`, translated clause by clause from
the source.  `Except.error` is the uncaught `AttributeError` of
`payload.get` on a decoded non-dict payload; everything inside the
handler's `try` that raises surfaces as the `ok=false, error=str(exc)`
result with no `publish_cfg` call and with the `logs_enabled` mutation
(which precedes any fallible step) already in place. -/
def on_cmd_cfg_set (ps : PsutilOracle) (st : CompState) (input : CmdInput) :
    Except Unit CfgSetOutcome :=
  match parseCmdSet input with
  | .error e => .error e
  | .ok (rid, sd) =>
      match sd with
      | .pydict set_kvs =>
          let step1 := applyLogsEnabled st set_kvs
          let st1 := step1.1
          let applied1 := step1.2
          match pyLookup set_kvs "telemetry" with
          | none =>
              .ok ⟨⟨rid, true,
                    (if applied1.isEmpty then none else some (.pydict applied1)),
                    none⟩, st1, true, []⟩
          | some tset =>
              match telemetryStep ps st1 tset with
              | .invalid =>
                  .ok ⟨⟨rid, false, none, some "telemetry must be an object"⟩,
                       st1, false, []⟩
              | .raised msg =>
                  .ok ⟨⟨rid, false, none, some msg⟩, st1, false, []⟩
              | .applied st2 ws =>
                  .ok ⟨⟨rid, true, some (.pydict (pySet applied1 "telemetry" tset)),
                        none⟩, st2, true, ws⟩
      | _ =>
          .ok ⟨⟨rid, false, none, some "payload \x27set\x27 must be an object"⟩,
               st, false, []⟩

/-- The metrics mapping stored in a component state's telemetry config,
when the stored document has the expected shape. -/
def telemetryMetricsOf (st : CompState) : Option (List (String × PyValue)) :=
  match st.telemetry_cfg with
  | .pydict tl =>
      match pyLookup tl "metrics" with
      | some (.pydict m) => some m
      | _ => none
  | _ => none

/-! ## Startup and lifecycle -/

/-- The default telemetry configuration document built in
`_publish_all_retained`: both known metrics enabled with interval 2 and
change threshold 2.0. -/
def defaultTelemetryConfigDoc : PyValue :=
  .pydict [("metrics", .pydict
    [("cpu_percent", .pydict
       [("enabled", .pybool true), ("interval_s", .pyint 2),
        ("change_threshold_percent", .pyfloat 2)]),
     ("load", .pydict
       [("enabled", .pybool true), ("interval_s", .pyint 2),
        ("change_threshold_percent", .pyfloat 2)])])]

/-- `_publish_all_retained`: publishes metadata/status/state, seeds the
Config Store with the default telemetry configuration via
`set_telemetry_config`, and publishes cfg.  The returned flag records
that `publish_cfg` ran. -/
def publish_all_retained (st : CompState) : CompState × Bool :=
  ({ st with telemetry_cfg := defaultTelemetryConfigDoc }, true)

/-- The lifecycle-relevant state of one component instance: the handler
state, the hosting framework's running flag, whether `self._thread` is
set, and the stop event. -/
structure LifecycleState where
  comp : CompState
  running : Bool
  thread_active : Bool
  stop_event : Bool

/-- `FixtureCpuComponent._start`: publish all retained documents (seeding
the config store), clear the stop event, spawn the loop thread. -/
def startHook (s : LifecycleState) : LifecycleState :=
  { s with comp := (publish_all_retained s.comp).1,
           stop_event := false, thread_active := true }

/-- `FixtureCpuComponent._stop`: when a thread handle is present, set the
stop event, join with a 2-second timeout (warning when the join times
out), and drop the handle; otherwise do nothing.  `joinExits` is the
oracle for whether the loop thread exited within the grace period; the
returned flag is the timeout warning. -/
def stopHook (joinExits : Bool) (s : LifecycleState) : LifecycleState × Bool :=
  if s.thread_active then
    ({ s with stop_event := true, thread_active := false }, ! joinExits)
  else (s, false)

/-- Modelled from the spec: `lucid_component_base.Component.start` (not
under `src/`) — "calling start while already running is a no-op in
effect"; otherwise it marks the component running and invokes the
component's `_start` hook. -/
def start (s : LifecycleState) : LifecycleState :=
  if s.running then s else { startHook s with running := true }

/-- Modelled from the spec: `lucid_component_base.Component.stop` (not
under `src/`) — invokes the `_stop` hook (which is itself robust to a
missing thread handle) and clears the running flag. -/
def stop (joinExits : Bool) (s : LifecycleState) : LifecycleState :=
  { (stopHook joinExits s).1 with running := false }

/-! ## The sampling loop -/

/-- The oracles for one tick of `_run_loop`: the `psutil` reads, whether
each publish call raises, what each `should_publish_telemetry` call
returns (`Except.error` = the gate itself raised), and whether the stop
event is observed by the end-of-tick wait. -/
structure TickEnv where
  psutil : PsutilOracle
  publishStateOk : Bool
  gateCpu : Except Unit Bool
  pubTelemetryCpuOk : Bool
  gateLoad : Except Unit Bool
  pubTelemetryLoadOk : Bool
  stopSignalled : Bool

/-- An externally observable publication made during a tick. -/
inductive TickEvent where
  | statePublished (payload : PyValue)
  | telemetryPublished (metric : String) (value : PyValue)

/-- The observable outcome of one tick: the publications that happened,
whether the `except` clause logged an exception, and whether the loop
breaks after the tick. -/
structure TickOutcome where
  events : List TickEvent
  exceptionLogged : Bool
  loopBreaks : Bool

/-- One iteration of `FixtureCpuComponent._run_loop`: the body runs under
`try/except Exception` (logging and falling through on any exception), and
the loop breaks exactly when the stop event is observed by the wait.  The
whole tick is a total function: no exception escapes. -/
def runTick (env : TickEnv) : TickOutcome :=
  let state := get_state_payload env.psutil
  let cpu := (match state with
    | .pydict kvs => (pyLookup kvs "cpu_percent").getD (.pyfloat 0)
    | _ => .pyfloat 0)
  let load := (match state with
    | .pydict kvs => (pyLookup kvs "load").getD (.pyfloat 0)
    | _ => .pyfloat 0)
  let body : List TickEvent × Bool :=
    if ! env.publishStateOk then ([], true)
    else
      let ev0 := [TickEvent.statePublished state]
      match env.gateCpu with
      | .error _ => (ev0, true)
      | .ok gc =>
          let s1 : List TickEvent × Bool :=
            if gc then
              if env.pubTelemetryCpuOk then
                (ev0 ++ [TickEvent.telemetryPublished "cpu_percent" cpu], false)
              else (ev0, true)
            else (ev0, false)
          if s1.2 then s1
          else
            match env.gateLoad with
            | .error _ => (s1.1, true)
            | .ok gl =>
                if gl then
                  if env.pubTelemetryLoadOk then
                    (s1.1 ++ [TickEvent.telemetryPublished "load" load], false)
                  else (s1.1, true)
                else (s1.1, false)
  { events := body.1, exceptionLogged := body.2, loopBreaks := env.stopSignalled }

end FixtureCpuComponent

/-! ## Association-list lemmas -/

theorem pyLookup_append_some {xs : List (String × PyValue)}
    (ys : List (String × PyValue)) {k : String} {v : PyValue}
    (h : pyLookup xs k = some v) : pyLookup (xs ++ ys) k = some v := by
  induction xs with
  | nil => simp [pyLookup] at h
  | cons p rest ih =>
      cases p with
      | mk k' w =>
          by_cases hk : k' = k
          · simp only [pyLookup, hk, if_pos rfl] at h ⊢
            simpa using h
          · simp only [pyLookup, if_neg hk] at h
            simpa [pyLookup, List.cons_append, if_neg hk] using ih h

theorem pyLookup_append_none {xs : List (String × PyValue)}
    (ys : List (String × PyValue)) {k : String}
    (h : pyLookup xs k = none) : pyLookup (xs ++ ys) k = pyLookup ys k := by
  induction xs with
  | nil => simp
  | cons p rest ih =>
      cases p with
      | mk k' w =>
          by_cases hk : k' = k
          · simp [pyLookup, hk] at h
          · simp only [pyLookup, if_neg hk] at h
            simpa [pyLookup, List.cons_append, if_neg hk] using ih h

theorem pyLookup_map_keyed (g : String → PyValue → PyValue)
    (xs : List (String × PyValue)) (k : String) :
    pyLookup (xs.map (fun p => (p.1, g p.1 p.2))) k =
      (pyLookup xs k).map (g k) := by
  induction xs with
  | nil => rfl
  | cons p rest ih =>
      cases p with
      | mk k' w =>
          by_cases hk : k' = k
          · subst hk; simp [pyLookup]
          · simp [pyLookup, hk, ih]

theorem pyLookup_filter_key (p : String → Bool)
    (xs : List (String × PyValue)) (k : String) :
    pyLookup (xs.filter (fun q => p q.1)) k =
      if p k then pyLookup xs k else none := by
  induction xs with
  | nil => simp [pyLookup]
  | cons q rest ih =>
      cases q with
      | mk k' w =>
          by_cases hk : k' = k
          · subst hk
            by_cases hp : p k' <;> simp [pyLookup, List.filter, hp, ih]
          · by_cases hp : p k' <;> simp [pyLookup, List.filter, hp, hk, ih]

theorem pyLookup_pySet_self (d : List (String × PyValue)) (k : String)
    (v : PyValue) : pyLookup (pySet d k v) k = some v := by
  induction d with
  | nil => simp [pySet, pyLookup]
  | cons p rest ih =>
      cases p with
      | mk k' w =>
          by_cases hk : k' = k
          · simp [pySet, pyLookup, hk]
          · simp [pySet, pyLookup, hk, ih]

theorem pyLookup_pySet_ne (d : List (String × PyValue)) {k k' : String}
    (v : PyValue) (h : k' ≠ k) :
    pyLookup (pySet d k v) k' = pyLookup d k' := by
  have h' : ¬ k = k' := fun hh => h hh.symm
  induction d with
  | nil => simp [pySet, pyLookup, h']
  | cons p rest ih =>
      cases p with
      | mk k'' w =>
          by_cases hk : k'' = k
          · subst hk
            simp [pySet, pyLookup, h']
          · simp [pySet, pyLookup, hk, ih]

theorem pyContains_pySet (d : List (String × PyValue)) (k k' : String)
    (v : PyValue) :
    pyContains (pySet d k v) k' = (decide (k' = k) || pyContains d k') := by
  by_cases h : k' = k
  · subst h; simp [pyContains, pyLookup_pySet_self]
  · simp [pyContains, pyLookup_pySet_ne _ _ h, h]

theorem pyContains_false_iff (d : List (String × PyValue)) (k : String) :
    pyContains d k = false ↔ pyLookup d k = none := by
  unfold pyContains
  cases pyLookup d k <;> simp

/-! ## `dictMerge` lemmas -/

theorem dictMerge_lookup_right (a : List (String × PyValue))
    {b : List (String × PyValue)} {k : String} {v : PyValue}
    (h : pyLookup b k = some v) : pyLookup (dictMerge a b) k = some v := by
  unfold dictMerge
  by_cases ha : pyContains a k = true
  · have ha' : ∃ w, pyLookup a k = some w := by
      simp only [pyContains, Option.isSome_iff_exists] at ha
      exact ha
    obtain ⟨w, hw⟩ := ha'
    apply pyLookup_append_some
    have := pyLookup_map_keyed (fun key val => (pyLookup b key).getD val) a k
    rw [this, hw]
    simp [h]
  · have ha0 : pyLookup a k = none := (pyContains_false_iff a k).1 (by
      simpa using ha)
    have hmap : pyLookup (a.map (fun p => (p.1, (pyLookup b p.1).getD p.2))) k
        = none := by
      rw [pyLookup_map_keyed (fun key val => (pyLookup b key).getD val) a k,
        ha0]
      rfl
    rw [pyLookup_append_none _ hmap]
    have := pyLookup_filter_key (fun key => ! pyContains a key) b k
    rw [this]
    simp [ha, h]

theorem dictMerge_lookup_left (a : List (String × PyValue))
    {b : List (String × PyValue)} {k : String}
    (h : pyLookup b k = none) : pyLookup (dictMerge a b) k = pyLookup a k := by
  unfold dictMerge
  have hmap : pyLookup (a.map (fun p => (p.1, (pyLookup b p.1).getD p.2))) k
      = pyLookup a k := by
    rw [pyLookup_map_keyed (fun key val => (pyLookup b key).getD val) a k, h]
    cases pyLookup a k <;> rfl
  cases hc : pyLookup a k with
  | some w => exact pyLookup_append_some _ (hmap.trans hc)
  | none =>
      rw [pyLookup_append_none _ (hmap.trans hc),
        pyLookup_filter_key (fun key => ! pyContains a key) b k]
      split <;> simp [h]

/-! ## Merge-loop and backfill lemmas -/

namespace FixtureCpuComponent

theorem availableMetrics_eq (ps : PsutilOracle) :
    availableMetrics ps = ["cpu_percent", "load"] := rfl

theorem mergeOneMetric_shape {av : List String} {cm : List (String × PyValue)}
    {name : String} {mcfg : PyValue} {cm' : List (String × PyValue)}
    {w : Option String}
    (h : mergeOneMetric av cm name mcfg = .ok (cm', w)) :
    cm' = cm ∨ ∃ v, cm' = pySet cm name v := by
  unfold mergeOneMetric at h
  split at h
  · simp only [Except.ok.injEq, Prod.mk.injEq] at h
    exact Or.inl h.1.symm
  · split at h
    · split at h
      · simp only [Except.ok.injEq, Prod.mk.injEq] at h
        exact Or.inr ⟨_, h.1.symm⟩
      · exact absurd h (by simp)
    · split at h
      · split at h
        · exact absurd h (by simp)
        · split at h
          · exact absurd h (by simp)
          · simp only [Except.ok.injEq, Prod.mk.injEq] at h
            exact Or.inr ⟨_, h.1.symm⟩
      · simp only [Except.ok.injEq, Prod.mk.injEq] at h
        exact Or.inr ⟨_, h.1.symm⟩

theorem mergeOneMetric_contains_mono {av : List String}
    {cm : List (String × PyValue)} {name : String} {mcfg : PyValue}
    {cm' : List (String × PyValue)} {w : Option String}
    (h : mergeOneMetric av cm name mcfg = .ok (cm', w)) (k : String)
    (hk : pyContains cm k = true) : pyContains cm' k = true := by
  rcases mergeOneMetric_shape h with rfl | ⟨v, rfl⟩
  · exact hk
  · rw [pyContains_pySet]
    simp [hk]

theorem mergeMetrics_contains_mono {av : List String} :
    ∀ {entries cm cm' : List (String × PyValue)} {ws : List String},
    mergeMetrics av entries cm = .ok (cm', ws) →
    ∀ k, pyContains cm k = true → pyContains cm' k = true := by
  intro entries
  induction entries with
  | nil =>
      intro cm cm' ws h k hk
      unfold mergeMetrics at h
      simp only [Except.ok.injEq, Prod.mk.injEq] at h
      exact h.1 ▸ hk
  | cons p rest ih =>
      intro cm cm' ws h k hk
      cases p with
      | mk name mcfg =>
          unfold mergeMetrics at h
          cases h1 : mergeOneMetric av cm name mcfg with
          | error e => rw [h1] at h; simp at h
          | ok pr =>
              obtain ⟨cmm, w⟩ := pr
              rw [h1] at h
              simp only at h
              cases h2 : mergeMetrics av rest cmm with
              | error e => rw [h2] at h; simp at h
              | ok pr2 =>
                  obtain ⟨cm2, ws2⟩ := pr2
                  rw [h2] at h
                  simp only [Except.ok.injEq, Prod.mk.injEq] at h
                  have := ih h2 k (mergeOneMetric_contains_mono h1 k hk)
                  exact h.1 ▸ this

theorem mergeMetrics_all_unknown {av : List String} :
    ∀ (entries : List (String × PyValue)) (cm : List (String × PyValue)),
    (∀ p ∈ entries, av.contains p.1 = false) →
    mergeMetrics av entries cm = .ok (cm, entries.map Prod.fst) := by
  intro entries
  induction entries with
  | nil => intro cm _; rfl
  | cons p rest ih =>
      intro cm h
      cases p with
      | mk name mcfg =>
          have h1 : av.contains name = false := h (name, mcfg) (by simp)
          have hone : mergeOneMetric av cm name mcfg = .ok (cm, some name) := by
            unfold mergeOneMetric
            rw [if_pos (show ¬ av.contains name = true by simpa using h1)]
          have hrest := ih cm (fun p hp => h p (List.mem_cons_of_mem _ hp))
          unfold mergeMetrics
          rw [hone]
          simp only
          rw [hrest]
          simp

theorem backfillMetrics_nil (cm : List (String × PyValue)) :
    backfillMetrics [] cm = cm := rfl

theorem backfillMetrics_cons (a : String) (rest : List String)
    (cm : List (String × PyValue)) :
    backfillMetrics (a :: rest) cm =
      backfillMetrics rest
        (if pyContains cm a then cm else pySet cm a defaultMetricCfg) := rfl

theorem backfillMetrics_contains_mono (av : List String) :
    ∀ (cm : List (String × PyValue)) (k : String),
    pyContains cm k = true → pyContains (backfillMetrics av cm) k = true := by
  induction av with
  | nil => intro cm k h; exact h
  | cons a rest ih =>
      intro cm k h
      rw [backfillMetrics_cons]
      apply ih
      split
      · exact h
      · rw [pyContains_pySet]
        simp [h]

theorem backfillMetrics_contains_of_mem (av : List String) :
    ∀ (cm : List (String × PyValue)) (k : String), k ∈ av →
    pyContains (backfillMetrics av cm) k = true := by
  induction av with
  | nil => intro cm k h; simp at h
  | cons a rest ih =>
      intro cm k h
      rw [backfillMetrics_cons]
      rcases List.mem_cons.1 h with rfl | hmem
      · apply backfillMetrics_contains_mono
        split
        · assumption
        · rw [pyContains_pySet]
          simp
      · exact ih _ k hmem

theorem backfillMetrics_contains_inv (av : List String) :
    ∀ (cm : List (String × PyValue)) (k : String),
    pyContains (backfillMetrics av cm) k = true →
    pyContains cm k = true ∨ k ∈ av := by
  induction av with
  | nil => intro cm k h; exact Or.inl h
  | cons a rest ih =>
      intro cm k h
      rw [backfillMetrics_cons] at h
      rcases ih _ k h with h1 | h1
      · by_cases hc : pyContains cm a = true
        · rw [if_pos hc] at h1
          exact Or.inl h1
        · rw [if_neg hc, pyContains_pySet] at h1
          rcases Bool.or_eq_true_iff.1 h1 with h2 | h2
          · exact Or.inr (by simp [of_decide_eq_true h2])
          · exact Or.inl h2
      · exact Or.inr (List.mem_cons_of_mem _ h1)

theorem backfillMetrics_eq_self (av : List String) :
    ∀ (cm : List (String × PyValue)),
    (∀ a ∈ av, pyContains cm a = true) → backfillMetrics av cm = cm := by
  induction av with
  | nil => intro cm _; rfl
  | cons a rest ih =>
      intro cm h
      rw [backfillMetrics_cons, if_pos (h a (by simp))]
      exact ih cm (fun b hb => h b (List.mem_cons_of_mem _ hb))

/-- Reduction of the full handler on a payload that carries exactly a
`telemetry` sub-object: the outcome is decided by `telemetryStep`. -/
theorem on_cmd_cfg_set_telemetry_only (ps : PsutilOracle) (st : CompState)
    (tset : PyValue) :
    on_cmd_cfg_set ps st (.decoded (.pydict [("set", .pydict [("telemetry", tset)])])) =
      match telemetryStep ps st tset with
      | .invalid =>
          .ok ⟨⟨.pystr "", false, none, some "telemetry must be an object"⟩,
               st, false, []⟩
      | .raised msg => .ok ⟨⟨.pystr "", false, none, some msg⟩, st, false, []⟩
      | .applied st2 ws =>
          .ok ⟨⟨.pystr "", true, some (.pydict [("telemetry", tset)]), none⟩,
               st2, true, ws⟩ := rfl

/-- Reduction of `telemetryStep` when the stored config and the submitted
`metrics` sub-object both have the expected dict shape. -/
theorem telemetryStep_metrics (ps : PsutilOracle) (st : CompState)
    (t_kvs tl m m_kvs : List (String × PyValue))
    (hst : st.telemetry_cfg = .pydict tl)
    (hm : pyLookup tl "metrics" = some (.pydict m))
    (hmk : pyLookup t_kvs "metrics" = some (.pydict m_kvs)) :
    telemetryStep ps st (.pydict t_kvs) =
      match mergeMetrics (availableMetrics ps) m_kvs m with
      | .error e => .raised e
      | .ok (cm1, ws) =>
          .applied { st with telemetry_cfg := (mkTelemetryDoc
            (backfillMetrics (availableMetrics ps) cm1)) } ws := by
  simp only [telemetryStep, hst, pyGetMethod, hm, Option.getD_some,
    pyDictCoerce, hmk]

/-- Reduction of `telemetryStep` when the submitted telemetry object has
no `metrics` entry: the stored metrics are re-set unchanged. -/
theorem telemetryStep_metrics_absent (ps : PsutilOracle) (st : CompState)
    (t_kvs tl m : List (String × PyValue))
    (hst : st.telemetry_cfg = .pydict tl)
    (hm : pyLookup tl "metrics" = some (.pydict m))
    (hmk : pyLookup t_kvs "metrics" = none) :
    telemetryStep ps st (.pydict t_kvs) =
      .applied { st with telemetry_cfg := mkTelemetryDoc m } [] := by
  simp only [telemetryStep, hst, pyGetMethod, hm, Option.getD_some,
    pyDictCoerce, hmk]

/-- Reduction of `telemetryStep` when the submitted `metrics` entry is
present but not an object: the code silently skips the merge and re-sets
the stored metrics unchanged. -/
theorem telemetryStep_metrics_nondict (ps : PsutilOracle) (st : CompState)
    (t_kvs tl m : List (String × PyValue)) (mv : PyValue)
    (hst : st.telemetry_cfg = .pydict tl)
    (hm : pyLookup tl "metrics" = some (.pydict m))
    (hmk : pyLookup t_kvs "metrics" = some mv) (hnd : mv.isDict = false) :
    telemetryStep ps st (.pydict t_kvs) =
      .applied { st with telemetry_cfg := mkTelemetryDoc m } [] := by
  simp only [telemetryStep, hst, pyGetMethod, hm, Option.getD_some,
    pyDictCoerce, hmk]
  cases mv with
  | pydict kvs => simp [PyValue.isDict] at hnd
  | pynull => rfl
  | pybool b => rfl
  | pyint n => rfl
  | pyfloat q => rfl
  | pystr s => rfl
  | pylist xs => rfl

/-- A conditional backfill (`pySet` only when the field is absent) never
disturbs an existing binding. -/
theorem cond_backfill_lookup {d : List (String × PyValue)} (f : String)
    (w : PyValue) {k : String} {v : PyValue} (h : pyLookup d k = some v) :
    pyLookup (if pyContains d f then d else pySet d f w) k = some v := by
  split
  · exact h
  · next hf =>
      have hf' : pyLookup d f = none := (pyContains_false_iff d f).1 (by
        simpa using hf)
      have hkf : k ≠ f := by
        intro hh
        rw [hh, hf'] at h
        cases h
      rw [pyLookup_pySet_ne d w hkf]
      exact h

/-- The deep-merge branch of the loop for a known metric whose current
configuration is a dict: the result replaces just that metric's entry,
fields from the partial win, and fields absent from the partial keep
their current values. -/
theorem mergeOneMetric_known_dict {av : List String}
    {cm : List (String × PyValue)} {name : String}
    {cur pkvs : List (String × PyValue)}
    (hav : av.contains name = true)
    (hcur : pyLookup cm name = some (.pydict cur)) :
    ∃ merged, mergeOneMetric av cm name (.pydict pkvs) =
        .ok (pySet cm name (.pydict merged), none) ∧
      (∀ k v, pyLookup pkvs k = some v → pyLookup merged k = some v) ∧
      (∀ k v, pyLookup pkvs k = none → pyLookup cur k = some v →
        pyLookup merged k = some v) := by
  unfold mergeOneMetric
  rw [if_neg (show ¬ ¬ av.contains name = true by simpa using hav), hcur]
  refine ⟨_, rfl, ?_, ?_⟩
  · intro k v hk
    exact cond_backfill_lookup _ _ (cond_backfill_lookup _ _
      (cond_backfill_lookup _ _ (dictMerge_lookup_right cur hk)))
  · intro k v hk hc
    exact cond_backfill_lookup _ _ (cond_backfill_lookup _ _
      (cond_backfill_lookup _ _ ((dictMerge_lookup_left cur hk).trans hc)))

theorem parseCmdSet_decoded_dict (pk : List (String × PyValue)) :
    parseCmdSet (.decoded (.pydict pk)) =
      .ok ((pyLookup pk "request_id").getD (.pystr ""),
        if ((pyLookup pk "set").getD .pynull).truthy
        then (pyLookup pk "set").getD .pynull else .pydict []) := rfl

/-- The `or \x7b\x7d` guard applied to a dict value is the identity (an
empty dict is falsy but is replaced by the same empty dict). -/
theorem if_truthy_dict (kvs : List (String × PyValue)) :
    (if (PyValue.pydict kvs).truthy then PyValue.pydict kvs
     else .pydict []) = .pydict kvs := by
  cases kvs <;> simp [PyValue.truthy]

theorem applyLogsEnabled_telemetry (st : CompState)
    (kvs : List (String × PyValue)) :
    (applyLogsEnabled st kvs).1.telemetry_cfg = st.telemetry_cfg := by
  unfold applyLogsEnabled
  cases pyLookup kvs "logs_enabled" <;> rfl

/-- Reduction of the full handler on a decoded dict payload whose `set`
entry is a dict. -/
theorem on_cmd_cfg_set_decoded_set_dict (ps : PsutilOracle) (st : CompState)
    (pk set_kvs : List (String × PyValue))
    (hsv : pyLookup pk "set" = some (.pydict set_kvs)) :
    on_cmd_cfg_set ps st (.decoded (.pydict pk)) =
      (match pyLookup set_kvs "telemetry" with
       | none =>
          .ok ⟨⟨(pyLookup pk "request_id").getD (.pystr ""), true,
            (if (applyLogsEnabled st set_kvs).2.isEmpty then none
             else some (.pydict (applyLogsEnabled st set_kvs).2)), none⟩,
            (applyLogsEnabled st set_kvs).1, true, []⟩
       | some tset =>
          match telemetryStep ps (applyLogsEnabled st set_kvs).1 tset with
          | .invalid =>
              .ok ⟨⟨(pyLookup pk "request_id").getD (.pystr ""), false, none,
                some "telemetry must be an object"⟩,
                (applyLogsEnabled st set_kvs).1, false, []⟩
          | .raised msg =>
              .ok ⟨⟨(pyLookup pk "request_id").getD (.pystr ""), false, none,
                some msg⟩, (applyLogsEnabled st set_kvs).1, false, []⟩
          | .applied st2 ws =>
              .ok ⟨⟨(pyLookup pk "request_id").getD (.pystr ""), true,
                some (.pydict (pySet (applyLogsEnabled st set_kvs).2
                  "telemetry" tset)), none⟩, st2, true, ws⟩) := by
  unfold on_cmd_cfg_set
  rw [parseCmdSet_decoded_dict, hsv]
  simp only [Option.getD_some, if_truthy_dict]

/-- A successfully applied `telemetryStep` leaves a stored metrics mapping
that is exhaustive over the available metrics, provided the previous
mapping was. -/
theorem telemetryStep_exhaustive {ps : PsutilOracle} {st1 : CompState}
    {tset : PyValue} {st2 : CompState} {ws : List String}
    (tl m : List (String × PyValue))
    (hst : st1.telemetry_cfg = .pydict tl)
    (hm : pyLookup tl "metrics" = some (.pydict m))
    (hex : ∀ a ∈ availableMetrics ps, pyContains m a = true)
    (h : telemetryStep ps st1 tset = .applied st2 ws) :
    ∃ m2, telemetryMetricsOf st2 = some m2 ∧
      ∀ a ∈ availableMetrics ps, pyContains m2 a = true := by
  cases tset with
  | pydict t_kvs =>
      cases hmk : pyLookup t_kvs "metrics" with
      | none =>
          rw [telemetryStep_metrics_absent ps st1 t_kvs tl m hst hm hmk] at h
          simp only [TelemetryStepResult.applied.injEq] at h
          rw [← h.1]
          exact ⟨m, rfl, hex⟩
      | some mv =>
          cases hd : mv.isDict with
          | false =>
              rw [telemetryStep_metrics_nondict ps st1 t_kvs tl m mv hst hm
                hmk hd] at h
              simp only [TelemetryStepResult.applied.injEq] at h
              rw [← h.1]
              exact ⟨m, rfl, hex⟩
          | true =>
              cases mv with
              | pydict m_kvs =>
                  rw [telemetryStep_metrics ps st1 t_kvs tl m m_kvs hst hm
                    hmk] at h
                  cases hmm : mergeMetrics (availableMetrics ps) m_kvs m with
                  | error e => rw [hmm] at h; simp at h
                  | ok pr =>
                      obtain ⟨cm1, ws1⟩ := pr
                      rw [hmm] at h
                      simp only [TelemetryStepResult.applied.injEq] at h
                      rw [← h.1]
                      refine ⟨backfillMetrics (availableMetrics ps) cm1, rfl, ?_⟩
                      intro a ha
                      exact backfillMetrics_contains_of_mem _ _ a ha
              | pynull => simp [PyValue.isDict] at hd
              | pybool b => simp [PyValue.isDict] at hd
              | pyint n => simp [PyValue.isDict] at hd
              | pyfloat q => simp [PyValue.isDict] at hd
              | pystr s => simp [PyValue.isDict] at hd
              | pylist xs => simp [PyValue.isDict] at hd
  | pynull => simp [telemetryStep] at h
  | pybool b => simp [telemetryStep] at h
  | pyint n => simp [telemetryStep] at h
  | pyfloat q => simp [telemetryStep] at h
  | pystr s => simp [telemetryStep] at h
  | pylist xs => simp [telemetryStep] at h

/-- Reduction of the full handler on a decoded dict payload whose `set`
entry is a non-dict: truthy values are rejected, falsy values are
replaced by the empty object and give a no-op success. -/
theorem on_cmd_cfg_set_decoded_set_nondict (ps : PsutilOracle)
    (st : CompState) (pk : List (String × PyValue)) (v : PyValue)
    (hsv : pyLookup pk "set" = some v) (hnd : v.isDict = false) :
    on_cmd_cfg_set ps st (.decoded (.pydict pk)) =
      (if v.truthy then
        .ok ⟨⟨(pyLookup pk "request_id").getD (.pystr ""), false, none,
          some "payload \x27set\x27 must be an object"⟩, st, false, []⟩
      else
        .ok ⟨⟨(pyLookup pk "request_id").getD (.pystr ""), true, none,
          none⟩, st, true, []⟩) := by
  unfold on_cmd_cfg_set
  rw [parseCmdSet_decoded_dict, hsv]
  simp only [Option.getD_some]
  by_cases htr : v.truthy
  · rw [if_pos htr, if_pos htr]
    cases v with
    | pydict kvs => simp [PyValue.isDict] at hnd
    | pynull => rfl
    | pybool b => rfl
    | pyint n => rfl
    | pyfloat q => rfl
    | pystr s => rfl
    | pylist xs => rfl
  · rw [if_neg htr, if_neg htr]
    rfl

/-! ## Claim theorems -/

/-- C5: whenever a cmd/cfg/set request succeeds (`ok=true`) against a
stored metrics mapping that covers every available metric, the resulting
stored (and republished: `publish_cfg` runs) metrics mapping again covers
every available metric. -/
theorem C5_config_exhaustive (ps : PsutilOracle) (st : CompState)
    (input : CmdInput) (tl m : List (String × PyValue)) (out : CfgSetOutcome)
    (hst : st.telemetry_cfg = .pydict tl)
    (hm : pyLookup tl "metrics" = some (.pydict m))
    (hex : ∀ a ∈ availableMetrics ps, pyContains m a = true)
    (hout : on_cmd_cfg_set ps st input = .ok out)
    (hok : out.result.ok = true) :
    out.published_cfg = true ∧
    ∃ m2, telemetryMetricsOf out.state = some m2 ∧
      ∀ a ∈ availableMetrics ps, pyContains m2 a = true := by
  cases input with
  | empty =>
      have h0 : on_cmd_cfg_set ps st .empty =
          .ok (⟨⟨.pystr "", true, none, none⟩, st, true, []⟩ :
            CfgSetOutcome) := rfl
      rw [h0] at hout
      injection hout with h
      subst h
      exact ⟨rfl, m, by simp [telemetryMetricsOf, hst, hm], hex⟩
  | undecodable =>
      have h0 : on_cmd_cfg_set ps st .undecodable =
          .ok (⟨⟨.pystr "", true, none, none⟩, st, true, []⟩ :
            CfgSetOutcome) := rfl
      rw [h0] at hout
      injection hout with h
      subst h
      exact ⟨rfl, m, by simp [telemetryMetricsOf, hst, hm], hex⟩
  | decoded v =>
      cases v with
      | pynull => simp [on_cmd_cfg_set, parseCmdSet] at hout
      | pybool b => simp [on_cmd_cfg_set, parseCmdSet] at hout
      | pyint n => simp [on_cmd_cfg_set, parseCmdSet] at hout
      | pyfloat q => simp [on_cmd_cfg_set, parseCmdSet] at hout
      | pystr s => simp [on_cmd_cfg_set, parseCmdSet] at hout
      | pylist xs => simp [on_cmd_cfg_set, parseCmdSet] at hout
      | pydict pk =>
          cases hsv : pyLookup pk "set" with
          | none =>
              have h0 : on_cmd_cfg_set ps st (.decoded (.pydict pk)) =
                  .ok (⟨⟨(pyLookup pk "request_id").getD (.pystr ""), true,
                    none, none⟩, st, true, []⟩ : CfgSetOutcome) := by
                unfold on_cmd_cfg_set
                rw [parseCmdSet_decoded_dict, hsv]
                rfl
              rw [h0] at hout
              injection hout with h
              subst h
              exact ⟨rfl, m, by simp [telemetryMetricsOf, hst, hm], hex⟩
          | some v =>
              by_cases hd : v.isDict = true
              · cases v with
                | pynull => simp [PyValue.isDict] at hd
                | pybool b => simp [PyValue.isDict] at hd
                | pyint n => simp [PyValue.isDict] at hd
                | pyfloat q => simp [PyValue.isDict] at hd
                | pystr s => simp [PyValue.isDict] at hd
                | pylist xs => simp [PyValue.isDict] at hd
                | pydict set_kvs =>
                    rw [on_cmd_cfg_set_decoded_set_dict ps st pk set_kvs hsv]
                      at hout
                    have hst1 : (applyLogsEnabled st set_kvs).1.telemetry_cfg =
                        .pydict tl :=
                      (applyLogsEnabled_telemetry st set_kvs).trans hst
                    cases htl : pyLookup set_kvs "telemetry" with
                    | none =>
                        simp only [htl, Except.ok.injEq] at hout
                        subst hout
                        exact ⟨rfl, m,
                          by simp [telemetryMetricsOf, hst1, hm], hex⟩
                    | some tset =>
                        cases hts : telemetryStep ps
                            (applyLogsEnabled st set_kvs).1 tset with
                        | invalid =>
                            simp only [htl, hts, Except.ok.injEq] at hout
                            rw [← hout] at hok
                            simp at hok
                        | raised msg =>
                            simp only [htl, hts, Except.ok.injEq] at hout
                            rw [← hout] at hok
                            simp at hok
                        | applied st2 ws =>
                            simp only [htl, hts, Except.ok.injEq] at hout
                            subst hout
                            exact ⟨rfl,
                              telemetryStep_exhaustive tl m hst1 hm hex hts⟩
              · have h0 := on_cmd_cfg_set_decoded_set_nondict ps st pk v hsv
                  (by simpa using hd)
                by_cases htr : v.truthy
                · rw [h0, if_pos htr] at hout
                  injection hout with h
                  rw [← h] at hok
                  simp at hok
                · rw [h0, if_neg htr] at hout
                  injection hout with h
                  subst h
                  exact ⟨rfl, m, by simp [telemetryMetricsOf, hst, hm], hex⟩

/-- Counterexample to C2 as stated: a request whose nested `metrics`
sub-object is a string (wrong shape) is NOT rejected — the handler
reports `ok=true` with no error and republishes the configuration. -/
theorem C2_metrics_shape_counterexample :
    PyValue.isDict (.pystr "nope") = false ∧
    ∃ out : CfgSetOutcome,
      on_cmd_cfg_set ⟨some 0, some 0⟩ ⟨false, defaultTelemetryConfigDoc⟩
        (.decoded (.pydict [("set", .pydict [("telemetry", .pydict
          [("metrics", .pystr "nope")])])])) = .ok out ∧
      out.result.ok = true ∧ out.result.error = none ∧
      out.published_cfg = true :=
  ⟨rfl, _, rfl, rfl, rfl, rfl⟩

/-- C2 (amended): only a non-object `telemetry` sub-object is rejected:
the result is `ok=false` with the error message, the configuration is not
republished and the stored telemetry config is unchanged (though a
`logs_enabled` flag in the same request has already been applied).  A
non-object `metrics` sub-object inside an object `telemetry` is silently
ignored: the request succeeds and the configuration is republished with
the stored metrics unchanged. -/
theorem C2_invalid_shape_amended (ps : PsutilOracle) (st : CompState)
    (pk set_kvs : List (String × PyValue))
    (hsv : pyLookup pk "set" = some (.pydict set_kvs)) :
    (∀ tset, pyLookup set_kvs "telemetry" = some tset → tset.isDict = false →
      ∃ out : CfgSetOutcome,
        on_cmd_cfg_set ps st (.decoded (.pydict pk)) = .ok out ∧
        out.result.ok = false ∧
        out.result.error = some "telemetry must be an object" ∧
        out.published_cfg = false ∧
        out.state.telemetry_cfg = st.telemetry_cfg) ∧
    (∀ (t_kvs tl m : List (String × PyValue)) (mv : PyValue),
      pyLookup set_kvs "telemetry" = some (.pydict t_kvs) →
      pyLookup t_kvs "metrics" = some mv → mv.isDict = false →
      st.telemetry_cfg = .pydict tl →
      pyLookup tl "metrics" = some (.pydict m) →
      ∃ out : CfgSetOutcome,
        on_cmd_cfg_set ps st (.decoded (.pydict pk)) = .ok out ∧
        out.result.ok = true ∧ out.published_cfg = true ∧
        telemetryMetricsOf out.state = some m) := by
  constructor
  · intro tset htl hnd
    rw [on_cmd_cfg_set_decoded_set_dict ps st pk set_kvs hsv]
    have hts : telemetryStep ps (applyLogsEnabled st set_kvs).1 tset =
        .invalid := by
      cases tset with
      | pydict kvs => simp [PyValue.isDict] at hnd
      | pynull => rfl
      | pybool b => rfl
      | pyint n => rfl
      | pyfloat q => rfl
      | pystr s => rfl
      | pylist xs => rfl
    simp only [htl, hts]
    exact ⟨_, rfl, rfl, rfl, rfl, applyLogsEnabled_telemetry st set_kvs⟩
  · intro t_kvs tl m mv htl hmk hnd hst hm
    rw [on_cmd_cfg_set_decoded_set_dict ps st pk set_kvs hsv]
    have hst1 : (applyLogsEnabled st set_kvs).1.telemetry_cfg = .pydict tl :=
      (applyLogsEnabled_telemetry st set_kvs).trans hst
    have hts := telemetryStep_metrics_nondict ps
      (applyLogsEnabled st set_kvs).1 t_kvs tl m mv hst1 hm hmk hnd
    simp only [htl, hts]
    exact ⟨_, rfl, rfl, rfl, rfl⟩

/-- Witness for the amended C2 at `telemetry = "bad"`. -/
theorem C2_invalid_shape_amended_witness :
    pyLookup [("set", PyValue.pydict [("telemetry", PyValue.pystr "bad")])]
        "set" = some (.pydict [("telemetry", PyValue.pystr "bad")]) ∧
    pyLookup [("telemetry", PyValue.pystr "bad")] "telemetry" =
      some (PyValue.pystr "bad") ∧
    PyValue.isDict (PyValue.pystr "bad") = false ∧
    (∃ out : CfgSetOutcome,
      on_cmd_cfg_set ⟨some 0, some 0⟩ ⟨false, defaultTelemetryConfigDoc⟩
        (.decoded (.pydict [("set", .pydict
          [("telemetry", .pystr "bad")])])) = .ok out ∧
      out.result.ok = false ∧
      out.result.error = some "telemetry must be an object" ∧
      out.published_cfg = false ∧
      out.state.telemetry_cfg =
        (⟨false, defaultTelemetryConfigDoc⟩ : CompState).telemetry_cfg) :=
  ⟨rfl, rfl, rfl,
   (C2_invalid_shape_amended ⟨some 0, some 0⟩
     ⟨false, defaultTelemetryConfigDoc⟩
     [("set", PyValue.pydict [("telemetry", PyValue.pystr "bad")])]
     [("telemetry", PyValue.pystr "bad")] rfl).1
     (PyValue.pystr "bad") rfl rfl⟩

/-- Counterexample to C1 as stated: a tick in which the cpu read of the
Metric Source fails still publishes the state payload (with the failed
metric substituted by 0.0, overwriting the retained state) and logs no
failure — the tick is not skipped. -/
theorem C1_source_failure_counterexample :
    (⟨⟨none, some 1⟩, true, .ok false, true, .ok false, true, false⟩ :
        TickEnv).psutil.cpu_percent = none ∧
    (runTick ⟨⟨none, some 1⟩, true, .ok false, true, .ok false, true,
        false⟩).events =
      [TickEvent.statePublished (.pydict
        [("cpu_percent", .pyfloat 0), ("load", .pyfloat 1)])] ∧
    (runTick ⟨⟨none, some 1⟩, true, .ok false, true, .ok false, true,
        false⟩).exceptionLogged = false ∧
    (runTick ⟨⟨none, some 1⟩, true, .ok false, true, .ok false, true,
        false⟩).loopBreaks = false :=
  ⟨rfl, rfl, rfl, rfl⟩

/-- C1 (amended): a failed Metric Source read is silently substituted by
0.0 inside `get_state_payload` and the tick proceeds, publishing the
substituted state without logging anything; an exception raised by the
tick body itself (here: by the state publish) is caught and logged, the
rest of the tick's publications are skipped, the loop does not stop
because of it, and no exception propagates (the tick is a total
function).  `envA` is a tick with a failed cpu read and healthy
publishing; `envB` is a tick whose state publish raises. -/
theorem C1_tick_error_containment_amended (envA envB : TickEnv)
    (gcb glb : Bool)
    (hA1 : envA.psutil.cpu_percent = none)
    (hA2 : envA.publishStateOk = true)
    (hA3 : envA.gateCpu = .ok gcb)
    (hA4 : envA.pubTelemetryCpuOk = true)
    (hA5 : envA.gateLoad = .ok glb)
    (hA6 : envA.pubTelemetryLoadOk = true)
    (hB : envB.publishStateOk = false) :
    (runTick envA).events.head? = some (TickEvent.statePublished (.pydict
      [("cpu_percent", .pyfloat 0),
       ("load", .pyfloat (envA.psutil.loadavg.getD 0))])) ∧
    (runTick envA).exceptionLogged = false ∧
    (runTick envA).loopBreaks = envA.stopSignalled ∧
    (runTick envB).exceptionLogged = true ∧
    (runTick envB).events = [] ∧
    (runTick envB).loopBreaks = envB.stopSignalled := by
  obtain ⟨⟨pcA, laA⟩, psoA, gcA, ptcA, glA, ptlA, ssA⟩ := envA
  obtain ⟨⟨pcB, laB⟩, psoB, gcB, ptcB, glB, ptlB, ssB⟩ := envB
  simp only at hA1 hA2 hA3 hA4 hA5 hA6 hB
  subst hA1 hA2 hA3 hA4 hA5 hA6 hB
  cases gcb <;> cases glb <;>
    simp [runTick, get_state_payload, pyLookup]

/-- Witness for the amended C1 at concrete ticks. -/
theorem C1_tick_error_containment_amended_witness :
    (⟨⟨none, some 1⟩, true, .ok false, true, .ok false, true, false⟩ :
        TickEnv).psutil.cpu_percent = none ∧
    (⟨⟨some 5, some 1⟩, false, .ok true, true, .ok true, true, true⟩ :
        TickEnv).publishStateOk = false ∧
    ((runTick ⟨⟨none, some 1⟩, true, .ok false, true, .ok false, true,
        false⟩).events.head? = some (TickEvent.statePublished (.pydict
      [("cpu_percent", .pyfloat 0), ("load", .pyfloat ((some (1 : ℚ)).getD 0))])) ∧
    (runTick ⟨⟨none, some 1⟩, true, .ok false, true, .ok false, true,
        false⟩).exceptionLogged = false ∧
    (runTick ⟨⟨none, some 1⟩, true, .ok false, true, .ok false, true,
        false⟩).loopBreaks = false ∧
    (runTick ⟨⟨some 5, some 1⟩, false, .ok true, true, .ok true, true,
        true⟩).exceptionLogged = true ∧
    (runTick ⟨⟨some 5, some 1⟩, false, .ok true, true, .ok true, true,
        true⟩).events = [] ∧
    (runTick ⟨⟨some 5, some 1⟩, false, .ok true, true, .ok true, true,
        true⟩).loopBreaks = true) :=
  ⟨rfl, rfl,
   C1_tick_error_containment_amended
     ⟨⟨none, some 1⟩, true, .ok false, true, .ok false, true, false⟩
     ⟨⟨some 5, some 1⟩, false, .ok true, true, .ok true, true, true⟩
     false false rfl rfl rfl rfl rfl rfl rfl⟩

/-- Witness for C5 at the empty payload against the default store. -/
theorem C5_config_exhaustive_witness :
    (⟨false, defaultTelemetryConfigDoc⟩ : CompState).telemetry_cfg =
      .pydict [("metrics", .pydict
        [("cpu_percent", .pydict
           [("enabled", .pybool true), ("interval_s", .pyint 2),
            ("change_threshold_percent", .pyfloat 2)]),
         ("load", .pydict
           [("enabled", .pybool true), ("interval_s", .pyint 2),
            ("change_threshold_percent", .pyfloat 2)])])] ∧
    ((⟨⟨.pystr "", true, none, none⟩, ⟨false, defaultTelemetryConfigDoc⟩,
        true, []⟩ : CfgSetOutcome).result.ok = true) ∧
    ((⟨⟨.pystr "", true, none, none⟩, ⟨false, defaultTelemetryConfigDoc⟩,
        true, []⟩ : CfgSetOutcome).published_cfg = true ∧
     ∃ m2, telemetryMetricsOf
        (⟨⟨.pystr "", true, none, none⟩, ⟨false, defaultTelemetryConfigDoc⟩,
          true, []⟩ : CfgSetOutcome).state = some m2 ∧
      ∀ a ∈ availableMetrics ⟨some 0, some 0⟩, pyContains m2 a = true) :=
  ⟨rfl, rfl,
   C5_config_exhaustive ⟨some 0, some 0⟩ ⟨false, defaultTelemetryConfigDoc⟩
     .empty
     [("metrics", .pydict
       [("cpu_percent", .pydict
          [("enabled", .pybool true), ("interval_s", .pyint 2),
           ("change_threshold_percent", .pyfloat 2)]),
        ("load", .pydict
          [("enabled", .pybool true), ("interval_s", .pyint 2),
           ("change_threshold_percent", .pyfloat 2)])])]
     [("cpu_percent", .pydict
        [("enabled", .pybool true), ("interval_s", .pyint 2),
         ("change_threshold_percent", .pyfloat 2)]),
      ("load", .pydict
        [("enabled", .pybool true), ("interval_s", .pyint 2),
         ("change_threshold_percent", .pyfloat 2)])]
     ⟨⟨.pystr "", true, none, none⟩, ⟨false, defaultTelemetryConfigDoc⟩,
       true, []⟩
     rfl rfl (by decide) rfl rfl⟩

/-- C3: a cmd/cfg/set request whose `metrics` object names only metrics
that are not currently available is still a success: every unknown metric
is skipped with a logged warning, the result is `ok=true`, the
configuration is republished, and the stored/published metrics mapping
gains no entry for any unknown name. -/
theorem C3_unknown_metric_skipped (ps : PsutilOracle) (st : CompState)
    (tl m entries : List (String × PyValue))
    (hst : st.telemetry_cfg = .pydict tl)
    (hm : pyLookup tl "metrics" = some (.pydict m))
    (hunknown : ∀ p ∈ entries, (availableMetrics ps).contains p.1 = false) :
    ∃ out : CfgSetOutcome,
      on_cmd_cfg_set ps st (.decoded (.pydict [("set", .pydict
        [("telemetry", .pydict [("metrics", .pydict entries)])])])) = .ok out ∧
      out.result.ok = true ∧
      out.warnings = entries.map Prod.fst ∧
      out.published_cfg = true ∧
      telemetryMetricsOf out.state =
        some (backfillMetrics (availableMetrics ps) m) ∧
      (∀ p ∈ entries, pyContains m p.1 = false →
        pyContains (backfillMetrics (availableMetrics ps) m) p.1 = false) := by
  have hts : telemetryStep ps st (.pydict [("metrics", .pydict entries)]) =
      .applied { st with telemetry_cfg := (mkTelemetryDoc
        (backfillMetrics (availableMetrics ps) m)) }
        (entries.map Prod.fst) := by
    rw [telemetryStep_metrics ps st [("metrics", .pydict entries)] tl m
        entries hst hm rfl,
      mergeMetrics_all_unknown entries m hunknown]
  rw [on_cmd_cfg_set_telemetry_only, hts]
  refine ⟨_, rfl, rfl, rfl, rfl, rfl, ?_⟩
  intro p hp hpre
  cases hc : pyContains (backfillMetrics (availableMetrics ps) m) p.1 with
  | false => rfl
  | true =>
      rcases backfillMetrics_contains_inv _ _ _ hc with h1 | h1
      · rw [h1] at hpre
        cases hpre
      · have h2 : p.1 ∉ availableMetrics ps := by
          simpa using hunknown p hp
        exact absurd h1 h2

/-- C4: merging a partial update for a known metric (whose current config
is present) changes only the fields the partial mentions: fields from the
partial win, fields absent from the partial keep their current values,
and every other metric's entry is untouched. -/
theorem C4_partial_merge_frame (ps : PsutilOracle) (st : CompState)
    (tl m cur pkvs : List (String × PyValue)) (name : String)
    (hst : st.telemetry_cfg = .pydict tl)
    (hm : pyLookup tl "metrics" = some (.pydict m))
    (hknown : (availableMetrics ps).contains name = true)
    (hcur : pyLookup m name = some (.pydict cur))
    (hex : ∀ a ∈ availableMetrics ps, pyContains m a = true) :
    ∃ (out : CfgSetOutcome) (merged : List (String × PyValue)),
      on_cmd_cfg_set ps st (.decoded (.pydict [("set", .pydict
        [("telemetry", .pydict [("metrics", .pydict
          [(name, .pydict pkvs)])])])])) = .ok out ∧
      out.result.ok = true ∧ out.published_cfg = true ∧
      telemetryMetricsOf out.state = some (pySet m name (.pydict merged)) ∧
      (∀ k v, pyLookup pkvs k = some v → pyLookup merged k = some v) ∧
      (∀ k v, pyLookup pkvs k = none → pyLookup cur k = some v →
        pyLookup merged k = some v) ∧
      (∀ other, other ≠ name →
        pyLookup (pySet m name (.pydict merged)) other = pyLookup m other) := by
  obtain ⟨merged, hone, hpart, hcurkeep⟩ := mergeOneMetric_known_dict hknown hcur
  have hmm : mergeMetrics (availableMetrics ps) [(name, .pydict pkvs)] m =
      .ok (pySet m name (.pydict merged), []) := by
    unfold mergeMetrics
    rw [hone]
    rfl
  have hbf : backfillMetrics (availableMetrics ps)
      (pySet m name (.pydict merged)) = pySet m name (.pydict merged) := by
    apply backfillMetrics_eq_self
    intro a ha
    rw [pyContains_pySet]
    simp [hex a ha]
  have hts := telemetryStep_metrics ps st
    [("metrics", .pydict [(name, .pydict pkvs)])] tl m
    [(name, .pydict pkvs)] hst hm rfl
  rw [hmm] at hts
  simp only at hts
  rw [hbf] at hts
  rw [on_cmd_cfg_set_telemetry_only, hts]
  refine ⟨_, merged, rfl, rfl, rfl, rfl, hpart, hcurkeep, ?_⟩
  intro other hother
  exact pyLookup_pySet_ne m (.pydict merged) hother

/-- Witness for C4 at the spec's example: disable `cpu_percent` against
the default configuration; `load` stays untouched. -/
theorem C4_partial_merge_frame_witness :
    (⟨false, defaultTelemetryConfigDoc⟩ : CompState).telemetry_cfg =
      .pydict [("metrics", .pydict
        [("cpu_percent", .pydict
           [("enabled", .pybool true), ("interval_s", .pyint 2),
            ("change_threshold_percent", .pyfloat 2)]),
         ("load", .pydict
           [("enabled", .pybool true), ("interval_s", .pyint 2),
            ("change_threshold_percent", .pyfloat 2)])])] ∧
    (∃ (out : CfgSetOutcome) (merged : List (String × PyValue)),
      on_cmd_cfg_set ⟨some 0, some 0⟩ ⟨false, defaultTelemetryConfigDoc⟩
        (.decoded (.pydict [("set", .pydict
          [("telemetry", .pydict [("metrics", .pydict
            [("cpu_percent", .pydict
              [("enabled", .pybool false)])])])])])) = .ok out ∧
      out.result.ok = true ∧ out.published_cfg = true ∧
      telemetryMetricsOf out.state = some (pySet
        [("cpu_percent", .pydict
           [("enabled", .pybool true), ("interval_s", .pyint 2),
            ("change_threshold_percent", .pyfloat 2)]),
         ("load", .pydict
           [("enabled", .pybool true), ("interval_s", .pyint 2),
            ("change_threshold_percent", .pyfloat 2)])]
        "cpu_percent" (.pydict merged)) ∧
      (∀ k v, pyLookup [("enabled", PyValue.pybool false)] k = some v →
        pyLookup merged k = some v) ∧
      (∀ k v, pyLookup [("enabled", PyValue.pybool false)] k = none →
        pyLookup [("enabled", PyValue.pybool true), ("interval_s", PyValue.pyint 2),
          ("change_threshold_percent", PyValue.pyfloat 2)] k = some v →
        pyLookup merged k = some v) ∧
      (∀ other, other ≠ "cpu_percent" →
        pyLookup (pySet
          [("cpu_percent", .pydict
            [("enabled", .pybool true), ("interval_s", .pyint 2),
             ("change_threshold_percent", .pyfloat 2)]),
           ("load", .pydict
            [("enabled", .pybool true), ("interval_s", .pyint 2),
             ("change_threshold_percent", .pyfloat 2)])]
          "cpu_percent" (.pydict merged)) other =
        pyLookup
          [("cpu_percent", .pydict
            [("enabled", .pybool true), ("interval_s", .pyint 2),
             ("change_threshold_percent", .pyfloat 2)]),
           ("load", .pydict
            [("enabled", .pybool true), ("interval_s", .pyint 2),
             ("change_threshold_percent", .pyfloat 2)])] other)) :=
  ⟨rfl,
   C4_partial_merge_frame ⟨some 0, some 0⟩ ⟨false, defaultTelemetryConfigDoc⟩
     [("metrics", .pydict
       [("cpu_percent", .pydict
          [("enabled", .pybool true), ("interval_s", .pyint 2),
           ("change_threshold_percent", .pyfloat 2)]),
        ("load", .pydict
          [("enabled", .pybool true), ("interval_s", .pyint 2),
           ("change_threshold_percent", .pyfloat 2)])])]
     [("cpu_percent", .pydict
        [("enabled", .pybool true), ("interval_s", .pyint 2),
         ("change_threshold_percent", .pyfloat 2)]),
      ("load", .pydict
        [("enabled", .pybool true), ("interval_s", .pyint 2),
         ("change_threshold_percent", .pyfloat 2)])]
     [("enabled", PyValue.pybool true), ("interval_s", PyValue.pyint 2),
      ("change_threshold_percent", PyValue.pyfloat 2)]
     [("enabled", PyValue.pybool false)] "cpu_percent"
     rfl rfl rfl rfl (by decide)⟩

/-- Witness for C3 at the spec's example: an update naming only
`bogus_metric` against an empty stored metrics mapping. -/
theorem C3_unknown_metric_skipped_witness :
    (⟨false, PyValue.pydict [("metrics", PyValue.pydict [])]⟩ :
        CompState).telemetry_cfg =
      PyValue.pydict [("metrics", PyValue.pydict [])] ∧
    pyLookup [("metrics", PyValue.pydict [])] "metrics" =
      some (PyValue.pydict []) ∧
    (∀ p ∈ [("bogus_metric",
        PyValue.pydict [("enabled", PyValue.pybool true)])],
      (availableMetrics ⟨some 0, some 0⟩).contains
        (Prod.fst (α := String) (β := PyValue) p) = false) ∧
    (∃ out : CfgSetOutcome,
      on_cmd_cfg_set ⟨some 0, some 0⟩
          ⟨false, PyValue.pydict [("metrics", PyValue.pydict [])]⟩
          (.decoded (.pydict [("set", .pydict [("telemetry", .pydict
            [("metrics", .pydict [("bogus_metric",
              PyValue.pydict [("enabled", PyValue.pybool true)])])])])])) =
        .ok out ∧
      out.result.ok = true ∧
      out.warnings = [("bogus_metric",
        PyValue.pydict [("enabled", PyValue.pybool true)])].map Prod.fst ∧
      out.published_cfg = true ∧
      telemetryMetricsOf out.state =
        some (backfillMetrics (availableMetrics ⟨some 0, some 0⟩) []) ∧
      (∀ p ∈ [("bogus_metric",
          PyValue.pydict [("enabled", PyValue.pybool true)])],
        pyContains [] (Prod.fst (α := String) (β := PyValue) p) = false →
        pyContains (backfillMetrics (availableMetrics ⟨some 0, some 0⟩) [])
          (Prod.fst (α := String) (β := PyValue) p) = false)) :=
  ⟨rfl, rfl, by decide,
   C3_unknown_metric_skipped ⟨some 0, some 0⟩
     ⟨false, PyValue.pydict [("metrics", PyValue.pydict [])]⟩
     [("metrics", PyValue.pydict [])] []
     [("bogus_metric", PyValue.pydict [("enabled", PyValue.pybool true)])]
     rfl rfl (by decide)⟩

/-- C6: every cmd/cfg/set request whose top-level `set` value is a truthy
non-object (e.g. a non-empty string) yields a CommandResult with
`ok=false` and a non-null error string, leaves the component state
entirely unchanged, and does not republish the configuration. -/
theorem C6_set_non_object_rejected (ps : PsutilOracle) (st : CompState)
    (pk : List (String × PyValue)) (v : PyValue)
    (hset : pyLookup pk "set" = some v)
    (htru : v.truthy = true) (hdict : v.isDict = false) :
    ∃ out : CfgSetOutcome,
      on_cmd_cfg_set ps st (.decoded (.pydict pk)) = .ok out ∧
      out.result.ok = false ∧ out.result.error.isSome = true ∧
      out.state = st ∧ out.published_cfg = false := by
  have hsd : parseCmdSet (.decoded (.pydict pk)) =
      .ok ((pyLookup pk "request_id").getD (.pystr ""), v) := by
    show Except.ok ((pyLookup pk "request_id").getD (.pystr ""),
      if ((pyLookup pk "set").getD .pynull).truthy
      then (pyLookup pk "set").getD .pynull else .pydict []) = _
    rw [hset]
    simp [htru]
  unfold on_cmd_cfg_set
  rw [hsd]
  cases v with
  | pydict kvs => simp [PyValue.isDict] at hdict
  | pynull => simp [PyValue.truthy] at htru
  | pybool b => exact ⟨_, rfl, rfl, rfl, rfl, rfl⟩
  | pyint n => exact ⟨_, rfl, rfl, rfl, rfl, rfl⟩
  | pyfloat q => exact ⟨_, rfl, rfl, rfl, rfl, rfl⟩
  | pystr s => exact ⟨_, rfl, rfl, rfl, rfl, rfl⟩
  | pylist xs => exact ⟨_, rfl, rfl, rfl, rfl, rfl⟩

/-- Witness for C6 at the spec's own example: `set = "not-an-object"`. -/
theorem C6_set_non_object_rejected_witness :
    pyLookup [("set", PyValue.pystr "not-an-object")] "set" =
        some (PyValue.pystr "not-an-object") ∧
    PyValue.truthy (PyValue.pystr "not-an-object") = true ∧
    PyValue.isDict (PyValue.pystr "not-an-object") = false ∧
    (∃ out : CfgSetOutcome,
      on_cmd_cfg_set ⟨some 0, some 0⟩ ⟨false, defaultTelemetryConfigDoc⟩
          (.decoded (.pydict [("set", PyValue.pystr "not-an-object")])) = .ok out ∧
      out.result.ok = false ∧ out.result.error.isSome = true ∧
      out.state = ⟨false, defaultTelemetryConfigDoc⟩ ∧
      out.published_cfg = false) :=
  ⟨rfl, rfl, rfl,
   C6_set_non_object_rejected ⟨some 0, some 0⟩ ⟨false, defaultTelemetryConfigDoc⟩
     [("set", PyValue.pystr "not-an-object")] (PyValue.pystr "not-an-object")
     rfl rfl rfl⟩

/-- C7: an empty or undecodable inbound payload is treated as an empty
request: `cmd/ping` answers with `request_id=""`, `ok=true`, `error=null`,
and `cmd/cfg/set` performs a no-op merge (state unchanged) also reported
with `request_id=""`, `ok=true`, `error=null`. -/
theorem C7_malformed_payload_empty_request (input : CmdInput)
    (h : input = .empty ∨ input = .undecodable) :
    on_cmd_ping input = .ok ⟨.pystr "", true, none, none⟩ ∧
    ∀ (ps : PsutilOracle) (st : CompState),
      ∃ out : CfgSetOutcome,
        on_cmd_cfg_set ps st input = .ok out ∧
        out.result.request_id = .pystr "" ∧ out.result.ok = true ∧
        out.result.error = none ∧ out.result.applied = none ∧
        out.state = st := by
  rcases h with rfl | rfl <;>
    exact ⟨rfl, fun ps st => ⟨_, rfl, rfl, rfl, rfl, rfl, rfl⟩⟩

/-- Witness for C7 at the empty payload. -/
theorem C7_malformed_payload_empty_request_witness :
    (CmdInput.empty = .empty ∨ CmdInput.empty = .undecodable) ∧
    (on_cmd_ping .empty = .ok ⟨.pystr "", true, none, none⟩ ∧
     ∀ (ps : PsutilOracle) (st : CompState),
      ∃ out : CfgSetOutcome,
        on_cmd_cfg_set ps st .empty = .ok out ∧
        out.result.request_id = .pystr "" ∧ out.result.ok = true ∧
        out.result.error = none ∧ out.result.applied = none ∧
        out.state = st) :=
  ⟨Or.inl rfl, C7_malformed_payload_empty_request .empty (Or.inl rfl)⟩

/-- C10: a cmd/cfg/set payload whose `set` field is present but falsy
(`null`, `false`, `0`, `""`, ...) is replaced by the empty object before
the shape check, so the request is a no-op merge reported `ok=true` with
no error, rather than a validation failure. -/
theorem C10_falsy_set_treated_as_empty (ps : PsutilOracle) (st : CompState)
    (pk : List (String × PyValue)) (v : PyValue)
    (hset : pyLookup pk "set" = some v) (hfalsy : v.truthy = false) :
    ∃ out : CfgSetOutcome,
      on_cmd_cfg_set ps st (.decoded (.pydict pk)) = .ok out ∧
      out.result.ok = true ∧ out.result.error = none ∧
      out.state = st ∧ out.published_cfg = true := by
  have hsd : parseCmdSet (.decoded (.pydict pk)) =
      .ok ((pyLookup pk "request_id").getD (.pystr ""), .pydict []) := by
    show Except.ok ((pyLookup pk "request_id").getD (.pystr ""),
      if ((pyLookup pk "set").getD .pynull).truthy
      then (pyLookup pk "set").getD .pynull else .pydict []) = _
    rw [hset]
    simp [hfalsy]
  unfold on_cmd_cfg_set
  rw [hsd]
  exact ⟨_, rfl, rfl, rfl, rfl, rfl⟩

/-- Witness for C10 at `set = null`. -/
theorem C10_falsy_set_treated_as_empty_witness :
    pyLookup [("set", PyValue.pynull)] "set" = some PyValue.pynull ∧
    PyValue.truthy PyValue.pynull = false ∧
    (∃ out : CfgSetOutcome,
      on_cmd_cfg_set ⟨some 0, some 0⟩ ⟨false, defaultTelemetryConfigDoc⟩
          (.decoded (.pydict [("set", PyValue.pynull)])) = .ok out ∧
      out.result.ok = true ∧ out.result.error = none ∧
      out.state = ⟨false, defaultTelemetryConfigDoc⟩ ∧
      out.published_cfg = true) :=
  ⟨rfl, rfl,
   C10_falsy_set_treated_as_empty ⟨some 0, some 0⟩
     ⟨false, defaultTelemetryConfigDoc⟩ [("set", PyValue.pynull)]
     PyValue.pynull rfl rfl⟩

/-- C8: at component start (`_start` → `_publish_all_retained`), the
Config Store is seeded with the default TelemetryConfig in which both
known metrics are present with `enabled=true`, interval 2, and change
threshold 2.0. -/
theorem C8_start_seeds_default_config (s : LifecycleState) :
    (startHook s).comp.telemetry_cfg = defaultTelemetryConfigDoc ∧
    ∃ m, telemetryMetricsOf (startHook s).comp = some m ∧
      pyLookup m "cpu_percent" = some (.pydict
        [("enabled", .pybool true), ("interval_s", .pyint 2),
         ("change_threshold_percent", .pyfloat 2)]) ∧
      pyLookup m "load" = some (.pydict
        [("enabled", .pybool true), ("interval_s", .pyint 2),
         ("change_threshold_percent", .pyfloat 2)]) :=
  ⟨rfl, _, rfl, rfl, rfl⟩

/-- C9: start and stop are idempotent and leave a consistent state: a
second `start` is a no-op in effect, a second `stop` does nothing, and
neither raises (both are total functions of the lifecycle state).  The
hypothesis restricts to consistent states (the running flag matches the
thread handle), which is an invariant of start/stop themselves. -/
theorem C9_start_stop_idempotent (s : LifecycleState) (j j' : Bool)
    (hcons : s.running = s.thread_active) :
    start (start s) = start s ∧
    stop j' (stop j s) = stop j s ∧
    (start s).running = true ∧ (start s).thread_active = true ∧
    (stop j s).running = false ∧ (stop j s).thread_active = false := by
  obtain ⟨comp, running, thread, ev⟩ := s
  simp only at hcons
  subst hcons
  refine ⟨?_, ?_, ?_, ?_, ?_, ?_⟩ <;>
    cases running <;>
      simp [start, stop, startHook, stopHook, publish_all_retained]

/-- Witness for C9 at a concrete stopped state. -/
theorem C9_start_stop_idempotent_witness :
    (⟨⟨false, PyValue.pynull⟩, false, false, false⟩ : LifecycleState).running =
        (⟨⟨false, PyValue.pynull⟩, false, false, false⟩ : LifecycleState).thread_active ∧
    start (start ⟨⟨false, PyValue.pynull⟩, false, false, false⟩) =
        start ⟨⟨false, PyValue.pynull⟩, false, false, false⟩ ∧
    stop true (stop true ⟨⟨false, PyValue.pynull⟩, false, false, false⟩) =
        stop true ⟨⟨false, PyValue.pynull⟩, false, false, false⟩ ∧
    (start ⟨⟨false, PyValue.pynull⟩, false, false, false⟩).running = true ∧
    (start ⟨⟨false, PyValue.pynull⟩, false, false, false⟩).thread_active = true ∧
    (stop true ⟨⟨false, PyValue.pynull⟩, false, false, false⟩).running = false ∧
    (stop true ⟨⟨false, PyValue.pynull⟩, false, false, false⟩).thread_active = false :=
  ⟨rfl, C9_start_stop_idempotent ⟨⟨false, PyValue.pynull⟩, false, false, false⟩
     true true rfl⟩

end FixtureCpuComponent

end LucidFixtureCpu
